import Mathlib

/-!
Verification of the BankingBot repository against its specification.

Shallow embedding of the core of the repository:
  * src/src/app/tools/sql_retrieval_tool.py  (the three SQL data tools)
  * src/src/app/agents/banking_agent.py      (turn execution and event stream)
  * src/src/app/evaluation/llm_judge.py and src/src/app/agents/response_judge.py
  * src/enhance_tool_parameters.py           (stand-alone parameter validator)

Modelling conventions:
  * Python dicts serialized with json.dumps are modelled by the `JValue` type;
    serialization itself is not modelled (properties are stated on the dict).
  * SQLAlchemy Float columns are modelled with rationals; DateTime columns are
    modelled as ISO-formatted strings, which compare chronologically the same
    way the underlying store compares the datetimes.
  * Wall-clock timestamp fields (datetime.now()) carried by events and result
    envelopes are ambient and not modelled; no claim mentions them.
  * The data store is a pure value passed to each tool; the branch that turns a
    raised database exception into a "Database query failed" envelope is not
    reachable in this pure model and is not modelled.
-/

namespace BankingBot

/-- JSON-like values, the shape of the Python dicts built by the tools. -/
inductive JValue where
  | null : JValue
  | bool : Bool → JValue
  | num : ℚ → JValue
  | str : String → JValue
  | arr : List JValue → JValue
  | obj : List (String × JValue) → JValue

/-- Field lookup on a JSON object (none on non-objects and missing keys). -/
def JValue.lookup (v : JValue) (k : String) : Option JValue :=
  match v with
  | .obj fields => List.lookup k fields
  | _ => none

/-! ## Data model (src/src/app/models/database_models.py) -/

/-- Row of the users table (columns used by the tools). -/
structure User where
  id : Nat
  userId : String
  firstName : String
  lastName : String
  deriving Repr, DecidableEq

/-- Row of the accounts table (columns used by the tools). -/
structure Account where
  id : Nat
  userId : Nat
  accountNumber : String
  accountType : String
  balance : ℚ
  currency : String
  isActive : Bool
  deriving Repr, DecidableEq

/-- Row of the transactions table (columns used by the tools). -/
structure Transaction where
  id : Nat
  accountId : Nat
  transactionId : String
  transactionType : String
  amount : ℚ
  description : String
  category : String
  merchant : String
  transactionDate : String
  createdAt : String
  deriving Repr, DecidableEq

/-- Row of the credit_cards table (columns used by the tools). -/
structure CreditCard where
  id : Nat
  userId : Nat
  cardNumber : String
  cardType : String
  creditLimit : ℚ
  currentBalance : ℚ
  availableCredit : Option ℚ
  minimumPayment : ℚ
  dueDate : Option String
  isActive : Bool
  deriving Repr, DecidableEq

/-- The relational data store seen by the tools. -/
structure Database where
  users : List User
  accounts : List Account
  transactions : List Transaction
  creditCards : List CreditCard
  deriving Repr, DecidableEq

/-! ## Tool layer (src/src/app/tools/sql_retrieval_tool.py) -/

/-- The placeholder blacklist shared by all three SQL tools
(`invalid_user_ids` in each tool body). -/
def invalidUserIds : List String :=
  ["user_id", "your_user_id", "none", "null", "", "placeholder", "example",
   "test_user", "userid", "authenticated_user"]

/-- Python `str.lower()`, modelled as lowercasing each character of the
string (stated on the underlying character list so proofs can compute). -/
def pyLower (s : String) : String := ⟨s.data.map Char.toLower⟩

/-- `not user_id or user_id.lower() in invalid_user_ids`. -/
def isInvalidUserId (userId : String) : Bool :=
  userId == "" || invalidUserIds.contains (pyLower userId)

/-- The rejection envelope each tool returns for an invalid `user_id`; `scope`
is the tool-specific tail of the message ("account balance", "transactions",
"credit card information").  The single-quote characters the Python f-string
puts around the offending id are elided. -/
def invalidUserIdEnvelope (userId scope : String) : JValue :=
  .obj [("error", .str "Invalid user_id parameter"),
        ("message", .str ("The user_id " ++ userId ++
          " appears to be a placeholder or invalid. I need the actual authenticated user\x27s ID to check their " ++ scope ++ ".")),
        ("user_id", .str userId),
        ("suggestion", .str "The user is already authenticated - please use their actual user_id from the authentication context, not a placeholder.")]

/-- `db.query(User).filter(User.user_id == user_id).first()`. -/
def findUser (db : Database) (userId : String) : Option User :=
  db.users.find? (fun (u : User) => u.userId == userId)

/-- `get_account_balance(user_id, account_number=None)`; the `as_of_date`
wall-clock field is omitted. -/
def getAccountBalance (db : Database) (userId : String)
    (accountNumber : Option String) : JValue :=
  if isInvalidUserId userId then
    invalidUserIdEnvelope userId "account balance"
  else
    match findUser db userId with
    | none =>
        .obj [("error", .str "User not found"),
              ("user_id", .str userId),
              ("message", .str ("No user found with ID " ++ userId ++ ". Please verify the user ID is correct.")),
              ("suggestion", .str "Ask user to verify their user ID or provide account number instead.")]
    | some user =>
        let query := db.accounts.filter (fun (a : Account) => a.userId == user.id && a.isActive)
        let accounts :=
          match accountNumber with
          | some n => query.filter (fun (a : Account) => a.accountNumber == n)
          | none => query
        let balances := accounts.map (fun (a : Account) => JValue.obj
          [("account_number", .str a.accountNumber),
           ("account_type", .str a.accountType),
           ("balance", .num a.balance),
           ("currency", .str a.currency)])
        let totalBalance : ℚ := (accounts.map (fun (a : Account) => a.balance)).sum
        .obj [("accounts", .arr balances),
              ("total_balance", .num totalBalance),
              ("currency", .str "USD")]

/-- Lexicographic comparison of the character lists (helper for `strLe`). -/
def charListLe : List Char → List Char → Bool
  | [], _ => true
  | _ :: _, [] => false
  | a :: as, b :: bs => if a < b then true else if b < a then false else charListLe as bs

/-- Lexicographic string order.  The store compares DateTime columns
chronologically; on ISO-formatted date strings that is exactly the
lexicographic order. -/
def strLe (a b : String) : Bool := charListLe a.data b.data

/-- Descending insertion by `transaction_date` (helper for `sortByDateDesc`). -/
def insertDesc (t : Transaction) : List Transaction → List Transaction
  | [] => [t]
  | u :: rest =>
      if strLe u.transactionDate t.transactionDate then t :: u :: rest
      else u :: insertDesc t rest

/-- `query.order_by(desc(Transaction.transaction_date))`. -/
def sortByDateDesc : List Transaction → List Transaction
  | [] => []
  | t :: rest => insertDesc t (sortByDateDesc rest)

/-- `get_transactions(user_id, account_number=None, limit=10, start_date=None,
end_date=None, transaction_type=None)`.  The Python `limit` is an int fed
straight into `query.limit(limit)`; the claims only exercise non-negative
values, modelled as `Nat` and applied via `List.take`.  Note the body performs
NO validation of `limit`. -/
def getTransactions (db : Database) (userId : String)
    (accountNumber : Option String) (limit : Nat)
    (startDate endDate transactionType : Option String) : JValue :=
  if isInvalidUserId userId then
    invalidUserIdEnvelope userId "transactions"
  else
    match findUser db userId with
    | none => .obj [("error", .str "User not found"), ("user_id", .str userId)]
    | some user =>
        let accountsQuery := db.accounts.filter (fun (a : Account) => a.userId == user.id && a.isActive)
        let accounts :=
          match accountNumber with
          | some n => accountsQuery.filter (fun (a : Account) => a.accountNumber == n)
          | none => accountsQuery
        let accountIds := accounts.map (fun (a : Account) => a.id)
        if accountIds.isEmpty then
          .obj [("transactions", .arr []), ("total_count", .num 0)]
        else
          let q0 := db.transactions.filter (fun (t : Transaction) => accountIds.contains t.accountId)
          let q1 := match startDate with
                    | some sd => q0.filter (fun (t : Transaction) => strLe sd t.transactionDate)
                    | none => q0
          let q2 := match endDate with
                    | some ed => q1.filter (fun (t : Transaction) => strLe t.transactionDate ed)
                    | none => q1
          let q3 := match transactionType with
                    | some tt => q2.filter (fun (t : Transaction) => t.transactionType == tt)
                    | none => q2
          let totalCount := q3.length
          let txns := (sortByDateDesc q3).take limit
          let txList := txns.map (fun (t : Transaction) => JValue.obj
            [("transaction_id", .str t.transactionId),
             ("account_number", .str (match accounts.find? (fun (a : Account) => a.id == t.accountId) with
                                      | some a => a.accountNumber
                                      | none => "Unknown")),
             ("transaction_type", .str t.transactionType),
             ("amount", .num t.amount),
             ("description", .str t.description),
             ("category", .str t.category),
             ("merchant", .str t.merchant),
             ("transaction_date", .str t.transactionDate),
             ("created_at", .str t.createdAt)])
          .obj [("transactions", .arr txList),
                ("total_count", .num (totalCount : ℚ)),
                ("limit", .num (limit : ℚ)),
                ("account_filter", match accountNumber with
                                   | some n => .str n
                                   | none => .null)]

/-- `f"****-****-****-{card.card_number[-4:]}" if len(card.card_number) >= 4
else card.card_number`. -/
def maskCardNumber (n : String) : String :=
  if 4 ≤ n.length then "****-****-****-" ++ n.takeRight 4 else n

/-- Python truthiness of `card.available_credit or (credit_limit - current_balance)`:
a stored `None` or `0.0` falls back to the computed difference. -/
def pyOrAvailableCredit (stored : Option ℚ) (computed : ℚ) : ℚ :=
  match stored with
  | some v => if v = 0 then computed else v
  | none => computed

/-- `round((current_balance / credit_limit) * 100, 2) if credit_limit > 0 else 0`
(float round modelled as nearest-integer rounding of hundredths). -/
def utilizationRate (currentBalance creditLimit : ℚ) : ℚ :=
  if 0 < creditLimit then (round (currentBalance / creditLimit * 100 * 100) : ℤ) / 100
  else 0

/-- The card_info dict built for each active card. -/
def cardInfo (card : CreditCard) : JValue :=
  .obj [("card_number", .str (maskCardNumber card.cardNumber)),
        ("card_type", .str card.cardType),
        ("credit_limit", .num card.creditLimit),
        ("current_balance", .num card.currentBalance),
        ("available_credit", .num (pyOrAvailableCredit card.availableCredit
                                     (card.creditLimit - card.currentBalance))),
        ("minimum_payment", .num card.minimumPayment),
        ("due_date", match card.dueDate with
                     | some d => .str d
                     | none => .null),
        ("utilization_rate", .num (utilizationRate card.currentBalance card.creditLimit))]

/-- `get_credit_card_info(user_id)`. -/
def getCreditCardInfo (db : Database) (userId : String) : JValue :=
  if isInvalidUserId userId then
    invalidUserIdEnvelope userId "credit card information"
  else
    match findUser db userId with
    | none =>
        .obj [("error", .str "User not found"),
              ("user_id", .str userId),
              ("message", .str ("No user found with ID " ++ userId ++ ". Please verify the user ID is correct.")),
              ("suggestion", .str "Ask user to verify their user ID.")]
    | some user =>
        let cards := (db.creditCards.filter
          (fun (c : CreditCard) => c.userId == user.id && c.isActive)).map cardInfo
        .obj [("credit_cards", .arr cards),
              ("total_cards", .num (cards.length : ℚ))]

/-! ## C1 -/

/-- C1: for a `user_id` that is empty or case-insensitively equal to one of the
fixed placeholder values, each of `get_account_balance`, `get_transactions`
and `get_credit_card_info` returns the InvalidUserId error envelope (error
field "Invalid user_id parameter" with message and suggestion fields), and the
result is independent of the data store, i.e. the rejection happens before any
data-store access. -/
theorem C1_invalid_user_id_rejected_before_store (userId : String)
    (h : userId = "" ∨ pyLower userId ∈ invalidUserIds) :
    ∀ (db db2 : Database) (accountNumber : Option String) (limit : Nat)
      (sd ed tt : Option String),
      (getAccountBalance db userId accountNumber).lookup "error"
          = some (.str "Invalid user_id parameter")
    ∧ ((getAccountBalance db userId accountNumber).lookup "message").isSome
    ∧ ((getAccountBalance db userId accountNumber).lookup "suggestion").isSome
    ∧ getAccountBalance db userId accountNumber = getAccountBalance db2 userId accountNumber
    ∧ (getTransactions db userId accountNumber limit sd ed tt).lookup "error"
          = some (.str "Invalid user_id parameter")
    ∧ ((getTransactions db userId accountNumber limit sd ed tt).lookup "message").isSome
    ∧ ((getTransactions db userId accountNumber limit sd ed tt).lookup "suggestion").isSome
    ∧ getTransactions db userId accountNumber limit sd ed tt
          = getTransactions db2 userId accountNumber limit sd ed tt
    ∧ (getCreditCardInfo db userId).lookup "error"
          = some (.str "Invalid user_id parameter")
    ∧ ((getCreditCardInfo db userId).lookup "message").isSome
    ∧ ((getCreditCardInfo db userId).lookup "suggestion").isSome
    ∧ getCreditCardInfo db userId = getCreditCardInfo db2 userId := by
  have hb : isInvalidUserId userId = true := by
    rcases h with h | h
    · subst h; rfl
    · simp [isInvalidUserId, h]
  intro db db2 accountNumber limit sd ed tt
  have hab : ∀ d : Database, getAccountBalance d userId accountNumber
      = invalidUserIdEnvelope userId "account balance" := by
    intro d; simp [getAccountBalance, hb]
  have htx : ∀ d : Database, getTransactions d userId accountNumber limit sd ed tt
      = invalidUserIdEnvelope userId "transactions" := by
    intro d; simp [getTransactions, hb]
  have hcc : ∀ d : Database, getCreditCardInfo d userId
      = invalidUserIdEnvelope userId "credit card information" := by
    intro d; simp [getCreditCardInfo, hb]
  refine ⟨?_, ?_, ?_, ?_, ?_, ?_, ?_, ?_, ?_, ?_, ?_, ?_⟩
  · rw [hab db]; rfl
  · rw [hab db]; rfl
  · rw [hab db]; rfl
  · rw [hab db, hab db2]
  · rw [htx db]; rfl
  · rw [htx db]; rfl
  · rw [htx db]; rfl
  · rw [htx db, htx db2]
  · rw [hcc db]; rfl
  · rw [hcc db]; rfl
  · rw [hcc db]; rfl
  · rw [hcc db, hcc db2]

/-- A small concrete data store used by witnesses and counterexamples below. -/
def demoDb : Database :=
  { users := [⟨1, "jane_smith", "Jane", "Smith"⟩],
    accounts := [⟨1, 1, "1001234569", "checking", 100, "USD", true⟩],
    transactions :=
      [⟨1, 1, "TXN001", "debit", 25, "Coffee", "food", "Cafe", "2024-03-01T10:00:00", "2024-03-01T10:00:00"⟩,
       ⟨2, 1, "TXN002", "credit", 500, "Salary", "income", "Employer", "2024-03-02T09:00:00", "2024-03-02T09:00:00"⟩],
    creditCards := [⟨1, 1, "4111111111111111", "Gold", 1000, 100, none, 25, none, true⟩] }

/-- C1 witness: the placeholder "USER_ID" (upper case, exercising the
case-insensitive comparison) is rejected by `get_account_balance`. -/
theorem C1_invalid_user_id_rejected_before_store_witness :
    ("USER_ID" = "" ∨ pyLower "USER_ID" ∈ invalidUserIds)
    ∧ (getAccountBalance demoDb "USER_ID" none).lookup "error"
        = some (.str "Invalid user_id parameter") := by
  have h : "USER_ID" = "" ∨ pyLower "USER_ID" ∈ invalidUserIds := Or.inr (by decide)
  exact ⟨h, (C1_invalid_user_id_rejected_before_store "USER_ID" h demoDb demoDb
      none 10 none none none).1⟩

/-! ## Stand-alone parameter validator (src/enhance_tool_parameters.py) -/

/-- Result record of `validate_parameter`. -/
structure ParameterValidation where
  isValid : Bool
  parameterName : String
  errorMessage : Option String
  suggestion : Option String
  deriving Repr, DecidableEq

/-- `validate_parameter("limit", value, rules)` specialized to the limit rule
of the `get_transactions` schema (`type int, min_value 1, max_value 100`):
the integer branch rejects a value below the minimum or above the maximum.
This validator lives only in the stand-alone script
`enhance_tool_parameters.py` (duplicated inside the test suite); nothing in
the tool layer calls it. -/
def validateLimitParameter (value : Int) : ParameterValidation :=
  if value < 1 then
    { isValid := false, parameterName := "limit",
      errorMessage := some ("Value " ++ toString value ++ " below minimum 1"),
      suggestion := some "Provide value >= 1" }
  else if value > 100 then
    { isValid := false, parameterName := "limit",
      errorMessage := some ("Value " ++ toString value ++ " above maximum 100"),
      suggestion := some "Provide value <= 100" }
  else
    { isValid := true, parameterName := "limit",
      errorMessage := none, suggestion := none }

/-! ## C4 -/

/-- The `error` field of a `get_transactions` result is fully determined by
the `user_id` validation and user resolution; the `limit` argument plays no
part in it. -/
theorem getTransactions_error_field (db : Database) (userId : String)
    (acct : Option String) (limit : Nat) (sd ed tt : Option String) :
    (getTransactions db userId acct limit sd ed tt).lookup "error"
      = (if isInvalidUserId userId then some (.str "Invalid user_id parameter")
         else match findUser db userId with
              | none => some (.str "User not found")
              | some _ => none) := by
  unfold getTransactions
  dsimp only
  repeat' split
  all_goals rfl

/-- C4 counterexample: `get_transactions(user_id="jane_smith", limit=0)` at
the demo store is NOT rejected: it reaches the data store and returns a
success envelope (no error field, empty transaction page, total_count 2). -/
theorem C4_counterexample_limit_zero_not_rejected :
    (getTransactions demoDb "jane_smith" none 0 none none none).lookup "error" = none
    ∧ (getTransactions demoDb "jane_smith" none 0 none none none).lookup "transactions"
        = some (.arr [])
    ∧ (getTransactions demoDb "jane_smith" none 0 none none none).lookup "total_count"
        = some (.num ((2 : Nat) : ℚ)) := by
  exact ⟨rfl, rfl, rfl⟩

/-- C4 (amended): `get_transactions` itself performs no limit validation —
whether an error envelope is returned is independent of the limit argument,
an out-of-range limit such as 101 is passed through unchanged (neither
rejected nor clamped) and yields a success envelope, and limit values 1 and
100 likewise succeed; the 1-100 boundary check that rejects 0 and 101 and
accepts 1 and 100 exists only in the stand-alone `validate_parameter`
helper of `enhance_tool_parameters.py`, which the tool never invokes. -/
theorem C4_amended_limit_unvalidated_by_tool :
    (validateLimitParameter 0).isValid = false
    ∧ (validateLimitParameter 101).isValid = false
    ∧ (validateLimitParameter 1).isValid = true
    ∧ (validateLimitParameter 100).isValid = true
    ∧ (∀ (db : Database) (userId : String) (acct : Option String)
         (l1 l2 : Nat) (sd ed tt : Option String),
         (getTransactions db userId acct l1 sd ed tt).lookup "error"
           = (getTransactions db userId acct l2 sd ed tt).lookup "error")
    ∧ (getTransactions demoDb "jane_smith" none 101 none none none).lookup "error" = none
    ∧ (getTransactions demoDb "jane_smith" none 101 none none none).lookup "limit"
        = some (.num ((101 : Nat) : ℚ))
    ∧ (getTransactions demoDb "jane_smith" none 1 none none none).lookup "error" = none
    ∧ (getTransactions demoDb "jane_smith" none 100 none none none).lookup "error" = none := by
  refine ⟨rfl, rfl, rfl, rfl, ?_, rfl, rfl, rfl, rfl⟩
  intro db userId acct l1 l2 sd ed tt
  rw [getTransactions_error_field, getTransactions_error_field]

/-! ## C6 -/

/-- Written from the wording of the spec (not from the code): a card-number
string is in the masked format when it is the fixed mask followed by a
visible tail, as in `****-****-****-XXXX`. -/
def specMaskedFormat (s : String) : Prop :=
  ∃ tail, s = "****-****-****-" ++ tail

/-- Extract the card_number string of one card_info object. -/
def cardNumberField (c : JValue) : Option String :=
  match c.lookup "card_number" with
  | some (.str s) => some s
  | _ => none

/-- The card_number strings inside the credit_cards array of a
`get_credit_card_info` result. -/
def cardNumbersOf (result : JValue) : List String :=
  match result.lookup "credit_cards" with
  | some (.arr cards) => cards.filterMap cardNumberField
  | _ => []

theorem filterMap_cardNumberField (l : List CreditCard) :
    (l.map cardInfo).filterMap cardNumberField
      = l.map (fun c => maskCardNumber c.cardNumber) := by
  induction l with
  | nil => rfl
  | cons c rest ih =>
      have h : (List.map cardInfo (c :: rest)).filterMap cardNumberField
          = maskCardNumber c.cardNumber
              :: (rest.map cardInfo).filterMap cardNumberField := rfl
      rw [h, ih, List.map_cons]

/-- A demo store whose only active credit card has the three-character stored
number "123". -/
def demoDbShortCard : Database :=
  { users := [⟨1, "jane_smith", "Jane", "Smith"⟩],
    accounts := [],
    transactions := [],
    creditCards := [⟨1, 1, "123", "Gold", 1000, 100, none, 25, none, true⟩] }

/-- C6 counterexample: for a stored card number shorter than 4 characters the
tool returns the number as-is, so the success envelope carries a card_number
("123") that is not in the masked `****-****-****-XXXX` format. -/
theorem C6_counterexample_short_number_returned_unmasked :
    cardNumbersOf (getCreditCardInfo demoDbShortCard "jane_smith") = ["123"]
    ∧ ¬ specMaskedFormat "123" := by
  refine ⟨rfl, ?_⟩
  rintro ⟨tail, htail⟩
  have h3 := congrArg String.length htail
  rw [String.length_append] at h3
  have e1 : ("123" : String).length = 3 := rfl
  have e2 : ("****-****-****-" : String).length = 15 := rfl
  rw [e1, e2] at h3
  omega

/-- C6 (amended): for a resolved user with a valid id, the credit_cards array
returned by `get_credit_card_info` carries exactly the masked numbers of all
active cards of the user; the mask `****-****-****-` followed by the last four
characters is applied whenever the stored number has at least 4 characters,
while a stored number shorter than 4 characters (which has no 4-digit suffix
to reveal) is returned as-is. -/
theorem C6_amended_mask_applied_when_four_digits (db : Database)
    (userId : String) (user : User)
    (hvalid : isInvalidUserId userId = false)
    (hfind : findUser db userId = some user) :
    cardNumbersOf (getCreditCardInfo db userId)
      = (db.creditCards.filter
          (fun (c : CreditCard) => c.userId == user.id && c.isActive)).map
            (fun c => maskCardNumber c.cardNumber)
    ∧ ∀ c ∈ db.creditCards.filter
          (fun (c : CreditCard) => c.userId == user.id && c.isActive),
        (4 ≤ c.cardNumber.length →
          maskCardNumber c.cardNumber = "****-****-****-" ++ c.cardNumber.takeRight 4
          ∧ specMaskedFormat (maskCardNumber c.cardNumber))
        ∧ (c.cardNumber.length < 4 → maskCardNumber c.cardNumber = c.cardNumber) := by
  constructor
  · simp only [getCreditCardInfo, hvalid, Bool.false_eq_true, if_false, hfind]
    exact filterMap_cardNumberField _
  · intro c _hc
    refine ⟨fun h4 => ?_, fun hlt => ?_⟩
    · have hm : maskCardNumber c.cardNumber
          = "****-****-****-" ++ c.cardNumber.takeRight 4 := by
        simp [maskCardNumber, h4]
      exact ⟨hm, c.cardNumber.takeRight 4, hm⟩
    · have : ¬ 4 ≤ c.cardNumber.length := by omega
      simp [maskCardNumber, this]

/-- C6 witness: at the demo store the single active card 4111111111111111 is
reported as ****-****-****-1111. -/
theorem C6_amended_mask_applied_when_four_digits_witness :
    isInvalidUserId "jane_smith" = false
    ∧ cardNumbersOf (getCreditCardInfo demoDb "jane_smith")
        = ["****-****-****-1111"] := by
  have h := C6_amended_mask_applied_when_four_digits demoDb "jane_smith"
      ⟨1, "jane_smith", "Jane", "Smith"⟩ rfl rfl
  refine ⟨rfl, ?_⟩
  rw [h.1]
  rfl

/-! ## Evaluation stage (src/src/app/evaluation/llm_judge.py and
src/src/app/agents/response_judge.py) -/

/-- One entry of `criteria_scores` (evaluation_models.EvaluationCriteria). -/
structure EvaluationCriteria where
  criterion : String
  score : Nat
  reasoning : String
  deriving Repr, DecidableEq

/-- The structured pydantic model `ResponseEvaluation`
(src/src/app/evaluation/evaluation_models.py).  Note its field list: it has
NO error flag. -/
structure ResponseEvaluation where
  overallScore : Nat
  criteriaScores : List EvaluationCriteria
  strengths : List String
  weaknesses : List String
  confidenceLevel : String
  summary : String
  deriving Repr, DecidableEq

/-- The JSON rendering of a `ResponseEvaluation` (pydantic model_dump):
exactly the six declared fields. -/
def ResponseEvaluation.toJValue (e : ResponseEvaluation) : JValue :=
  .obj [("overall_score", .num (e.overallScore : ℚ)),
        ("criteria_scores", .arr (e.criteriaScores.map (fun c => JValue.obj
          [("criterion", .str c.criterion),
           ("score", .num (c.score : ℚ)),
           ("reasoning", .str c.reasoning)]))),
        ("strengths", .arr (e.strengths.map JValue.str)),
        ("weaknesses", .arr (e.weaknesses.map JValue.str)),
        ("confidence_level", .str e.confidenceLevel),
        ("summary", .str e.summary)]

/-- The fallback the structured judge builds in the except branch of
`BankingResponseJudge.evaluate_response` (llm_judge.py). -/
def fallbackResponseEvaluation : ResponseEvaluation :=
  { overallScore := 3,
    criteriaScores := [],
    strengths := ["Response provided"],
    weaknesses := ["Could not evaluate due to technical error"],
    confidenceLevel := "Medium",
    summary := "Evaluation unavailable due to technical error" }

/-- `BankingResponseJudge.evaluate_response` (llm_judge.py): the judge model
call either produces a structured evaluation or raises; a raised exception is
caught and replaced by the fallback evaluation. -/
def evaluateResponse (judgeCall : Except String ResponseEvaluation) :
    ResponseEvaluation :=
  match judgeCall with
  | .ok evaluation => evaluation
  | .error _ => fallbackResponseEvaluation

/-- `BankingResponseJudge._create_fallback_evaluation` of the dict-based
judge (response_judge.py); the wall-clock timestamp field is omitted. -/
def createFallbackEvaluation (errorMessage : String) : JValue :=
  .obj [("overall_score", .num 3),
        ("accuracy", .num 3),
        ("completeness", .num 3),
        ("context_adherence", .num 3),
        ("professional_quality", .num 3),
        ("explanation", .str ("Evaluation failed: " ++ errorMessage)),
        ("strengths", .arr [.str "Response provided"]),
        ("improvements", .arr [.str "Evaluation system needs attention"]),
        ("error", .bool true)]

/-- `BankingResponseJudge.evaluate_response` of the dict-based judge
(response_judge.py), reduced to its exception behaviour: a raised judge call
is caught and replaced by `_create_fallback_evaluation(str(e))`. -/
def evaluateResponseDictJudge (judgeCall : Except String JValue) : JValue :=
  match judgeCall with
  | .ok evaluation => evaluation
  | .error e => createFallbackEvaluation e

/-! ## C7 -/

/-- C7 counterexample: when the structured judge call raises, the evaluation
returned by `evaluate_response` (llm_judge.py, the cited symbol) has NO error
field at all — `ResponseEvaluation` does not declare one — so it does not
have `error` set to `true` as the claim states. -/
theorem C7_counterexample_fallback_has_no_error_field :
    (evaluateResponse (Except.error "RateLimitError")).toJValue.lookup "error"
      = none := by
  rfl

/-- C7 (amended): a raised judge model call never propagates out of
`evaluate_response`.  The structured judge (llm_judge.py) returns a fallback
with overall_score 3, empty criteria scores and an explanatory note, but its
`ResponseEvaluation` carries no error flag; the parallel dict-based judge
(response_judge.py) does set `error=true` in its fallback, but that fallback
fills the four per-criterion scores with neutral 3s instead of leaving the
criteria empty. -/
theorem C7_amended_fallback_evaluation (exceptionText : String) :
    evaluateResponse (Except.error exceptionText) = fallbackResponseEvaluation
    ∧ (evaluateResponse (Except.error exceptionText)).overallScore = 3
    ∧ (evaluateResponse (Except.error exceptionText)).criteriaScores = []
    ∧ (evaluateResponse (Except.error exceptionText)).summary
        = "Evaluation unavailable due to technical error"
    ∧ (evaluateResponse (Except.error exceptionText)).toJValue.lookup "error" = none
    ∧ (evaluateResponseDictJudge (Except.error exceptionText)).lookup "error"
        = some (.bool true)
    ∧ (evaluateResponseDictJudge (Except.error exceptionText)).lookup "overall_score"
        = some (.num 3)
    ∧ (evaluateResponseDictJudge (Except.error exceptionText)).lookup "accuracy"
        = some (.num 3)
    ∧ (evaluateResponseDictJudge (Except.error exceptionText)).lookup "completeness"
        = some (.num 3) := by
  exact ⟨rfl, rfl, rfl, rfl, rfl, rfl, rfl, rfl, rfl⟩

/-! ## Turn execution and event stream (src/src/app/agents/banking_agent.py)

`BankingAgent.stream_response` consumes the raw events the underlying
`astream_events` source yields and emits the protocol events.  The source is
modelled as the finite list of raw events the loop receives, together with an
optional exception message when the source raises after those events (events
after a raise are never delivered, so the list is exactly the processed
prefix).  Detail payloads (`details` dicts) and wall-clock timestamps carried
by the emitted events are not inspected by any claim and are omitted; the
tool-name extraction fallbacks of the tool-start/tool-end branches and the
`_create_result_preview` computation only produce display text and are
folded into the name/preview fields of the raw event. -/

/-- The `phase` tag of a react_step event. -/
inductive Phase where
  | THOUGHT
  | ACTION
  | OBSERVATION
  | FINAL_ANSWER
  deriving Repr, DecidableEq

/-- The protocol events yielded by `stream_response`. -/
inductive StreamEvent where
  | streamStart (userId threadId : String)
  | reactStep (step : Nat) (phase : Phase) (content : String) (userId : String)
  | reasoningToken (content : String) (step : Nat) (userId : String)
  | errorEvent (content : String)
  | streamComplete
  | completion (threadId : String) (toolsUsed : Nat) (responseLength : Nat)
  deriving Repr, DecidableEq

/-- A message of the chain-end output list: an assistant message with its
content and the names of its pending tool calls, or any other message kind. -/
inductive ChainMessage where
  | ai (content : String) (toolCalls : List String)
  | other
  deriving Repr, DecidableEq

/-- The raw execution events of `astream_events` that
`_parse_langgraph_event` distinguishes; every unrecognized event type is
`otherEvent`.  A chain-end whose output is not a dict with a messages list is
`onChainEnd none`. -/
inductive SourceEvent where
  | onChatModelStart (name : String)
  | onChatModelStream (content : String)
  | onChatModelEnd (toolCalls : List String) (content : String)
  | onToolStart (name : String)
  | onToolEnd (name : String) (preview : String)
  | onChainEnd (messages : Option (List ChainMessage))
  | otherEvent
  deriving Repr, DecidableEq

/-- The per-turn mutable fields of the agent object:
`self.current_step` and `self._final_answer_emitted`. -/
structure AgentState where
  currentStep : Nat
  finalAnswerEmitted : Bool
  deriving Repr, DecidableEq

/-- The condition of the reversed message scan in the chain-end branch: an
AIMessage with truthy content and no pending tool calls. -/
def isFinalAIMessage : ChainMessage → Bool
  | .ai content toolCalls => content != "" && toolCalls.isEmpty
  | .other => false

/-- `BankingAgent._parse_langgraph_event`, as a state transition on the
per-turn fields returning the (optional) emitted protocol event. -/
def parseLanggraphEvent (userId : String) (st : AgentState) (e : SourceEvent) :
    Option StreamEvent × AgentState :=
  match e with
  | .onChatModelStart _ =>
      let st1 : AgentState := { st with currentStep := st.currentStep + 1 }
      (some (.reactStep st1.currentStep .THOUGHT
        "💭 Analyzing your request and planning the next steps..." userId), st1)
  | .onChatModelStream content =>
      if content != "" then
        (some (.reasoningToken content st.currentStep userId), st)
      else (none, st)
  | .onChatModelEnd toolCalls content =>
      match toolCalls with
      | toolName :: _ =>
          (some (.reactStep st.currentStep .ACTION
            ("🔧 Using tool: " ++ toolName) userId), st)
      | [] =>
          if content != "" then
            (some (.reactStep st.currentStep .THOUGHT
              "💭 Finalizing response based on the information gathered..." userId), st)
          else (none, st)
  | .onToolStart toolName =>
      let st1 : AgentState := { st with currentStep := st.currentStep + 1 }
      (some (.reactStep st1.currentStep .ACTION
        ("🔧 Executing " ++ toolName) userId), st1)
  | .onToolEnd _ preview =>
      (some (.reactStep st.currentStep .OBSERVATION ("👁️ " ++ preview) userId), st)
  | .onChainEnd messages =>
      match messages with
      | some msgs =>
          match msgs.reverse.find? isFinalAIMessage with
          | some (ChainMessage.ai _ _) =>
              if st.finalAnswerEmitted then (none, st)
              else
                let st1 : AgentState :=
                  { currentStep := st.currentStep + 1, finalAnswerEmitted := true }
                (some (.reactStep st1.currentStep .FINAL_ANSWER
                  "✅ Here\x27s your complete response:" userId), st1)
          | _ => (none, st)
      | none => (none, st)
  | .otherEvent => (none, st)

/-- The event loop of `stream_response`: parse each raw event in order,
yielding the parsed event when there is one and threading the agent state. -/
def processEvents (userId : String) (st : AgentState) :
    List SourceEvent → List StreamEvent × AgentState
  | [] => ([], st)
  | e :: rest =>
      let parsed := parseLanggraphEvent userId st e
      let restOut := processEvents userId parsed.2 rest
      (parsed.1.toList ++ restOut.1, restOut.2)

/-- The tools registered on the agent (`self.tools`). -/
def bankingAgentTools : List String :=
  ["get_account_balance", "get_transactions", "get_credit_card_info",
   "search_bank_documents"]

/-- `BankingAgent.stream_response`.  `priorState` is the value of the
per-turn mutable fields left over from any earlier turn; the method assigns
`current_step = 0` and `_final_answer_emitted = False` before the loop, so
the output never depends on it.  `raised` is the exception the source raises
after yielding `evs`, turned into a single error event by the except branch;
`stream_complete` and the `completion` summary (whose tools_used field the
code computes as `len([t for t in self.tools])`) are yielded afterwards in
every case. -/
def streamResponse (priorState : AgentState) (message threadId userId : String)
    (evs : List SourceEvent) (raised : Option String) : List StreamEvent :=
  .streamStart userId threadId
    :: (processEvents userId { currentStep := 0, finalAnswerEmitted := false } evs).1
    ++ (match raised with
        | some m => [.errorEvent ("Error: " ++ m)]
        | none => [])
    ++ [.streamComplete, .completion threadId bankingAgentTools.length 0]

/-- Recognizer for FINAL_ANSWER react_step events. -/
def isFinalAnswerEvent : StreamEvent → Bool
  | .reactStep _ .FINAL_ANSWER _ _ => true
  | _ => false

/-- Number of FINAL_ANSWER react_step events in a stream. -/
def countFinalAnswers (l : List StreamEvent) : Nat :=
  l.countP isFinalAnswerEvent

/-- Recognizer for error events. -/
def isErrorStreamEvent : StreamEvent → Bool
  | .errorEvent _ => true
  | _ => false

/-- Recognizer for ACTION react_step events. -/
def isActionEvent : StreamEvent → Bool
  | .reactStep _ .ACTION _ _ => true
  | _ => false

/-- Recognizer for raw tool-start events (one per tool invocation). -/
def isToolStartEvent : SourceEvent → Bool
  | .onToolStart _ => true
  | _ => false

/-- The step value carried by a react_step or reasoning_token event. -/
def stepOfEvent : StreamEvent → Option Nat
  | .reactStep s _ _ _ => some s
  | .reasoningToken _ s _ => some s
  | _ => none

/-- The step values carried by react_step and reasoning_token events, in
stream order. -/
def stepsOf (l : List StreamEvent) : List Nat :=
  l.filterMap stepOfEvent

/-- A raw chain-end event that carries a final assistant message (an
AIMessage with content and no pending tool calls). -/
def hasQualifyingChainEnd : SourceEvent → Bool
  | .onChainEnd (some msgs) => msgs.any isFinalAIMessage
  | _ => false

/-! ## Module-level agent singleton (src/src/app/agents/banking_agent.py,
`get_banking_agent`) -/

/-- One constructed BankingAgent object, identified by creation order. -/
structure BankingAgentInstance where
  instanceId : Nat
  deriving Repr, DecidableEq

/-- The module-level globals: `_agent_instance` plus the identity of the next
instance a construction would create. -/
structure AgentModuleState where
  agentInstance : Option BankingAgentInstance
  nextInstanceId : Nat
  deriving Repr, DecidableEq

/-- `get_banking_agent(user_id)`: return the module-level instance, creating
it on first use; the user_id argument is never consulted. -/
def getBankingAgent (userId : String) (st : AgentModuleState) :
    BankingAgentInstance × AgentModuleState :=
  match st.agentInstance with
  | some a => (a, st)
  | none =>
      (⟨st.nextInstanceId⟩,
       { agentInstance := some ⟨st.nextInstanceId⟩,
         nextInstanceId := st.nextInstanceId + 1 })

/-! ## Invariant lemmas about the event loop -/

theorem parseLanggraphEvent_finalAnswer (u : String) (st : AgentState)
    (e : SourceEvent) :
    countFinalAnswers (parseLanggraphEvent u st e).1.toList
      = (if st.finalAnswerEmitted then 0
         else if hasQualifyingChainEnd e then 1 else 0)
    ∧ (parseLanggraphEvent u st e).2.finalAnswerEmitted
      = (st.finalAnswerEmitted || hasQualifyingChainEnd e) := by
  cases e with
  | onChainEnd messages =>
      cases messages with
      | none => cases hf : st.finalAnswerEmitted <;>
          simp [parseLanggraphEvent, countFinalAnswers, hasQualifyingChainEnd, hf]
      | some msgs =>
          cases hfind : msgs.reverse.find? isFinalAIMessage with
          | none =>
              have hany : msgs.any isFinalAIMessage = false := by
                rw [List.any_eq_false]
                intro m hm
                have := List.find?_eq_none.mp hfind m (List.mem_reverse.mpr hm)
                simpa using this
              cases hf : st.finalAnswerEmitted <;>
                simp [parseLanggraphEvent, hfind, countFinalAnswers,
                  hasQualifyingChainEnd, hany, hf]
          | some m =>
              have hp : isFinalAIMessage m = true := List.find?_some hfind
              have hmem : m ∈ msgs :=
                List.mem_reverse.mp (List.mem_of_find?_eq_some hfind)
              have hany : msgs.any isFinalAIMessage = true :=
                List.any_eq_true.mpr ⟨m, hmem, hp⟩
              cases m with
              | other => simp [isFinalAIMessage] at hp
              | ai c tc =>
                  cases hf : st.finalAnswerEmitted <;>
                    simp [parseLanggraphEvent, hfind, countFinalAnswers,
                      hasQualifyingChainEnd, hany, hf, isFinalAnswerEvent]
  | onChatModelStart n => cases hf : st.finalAnswerEmitted <;>
      simp [parseLanggraphEvent, countFinalAnswers, hasQualifyingChainEnd, hf,
        isFinalAnswerEvent]
  | onChatModelStream content =>
      cases hf : st.finalAnswerEmitted <;>
        (dsimp only [parseLanggraphEvent]; split) <;>
        simp [countFinalAnswers, hasQualifyingChainEnd, hf, isFinalAnswerEvent]
  | onChatModelEnd toolCalls content =>
      cases toolCalls <;>
        cases hf : st.finalAnswerEmitted <;>
        (dsimp only [parseLanggraphEvent]; try split) <;>
        simp [countFinalAnswers, hasQualifyingChainEnd, hf, isFinalAnswerEvent]
  | onToolStart n => cases hf : st.finalAnswerEmitted <;>
      simp [parseLanggraphEvent, countFinalAnswers, hasQualifyingChainEnd, hf,
        isFinalAnswerEvent]
  | onToolEnd n p => cases hf : st.finalAnswerEmitted <;>
      simp [parseLanggraphEvent, countFinalAnswers, hasQualifyingChainEnd, hf,
        isFinalAnswerEvent]
  | otherEvent => cases hf : st.finalAnswerEmitted <;>
      simp [parseLanggraphEvent, countFinalAnswers, hasQualifyingChainEnd, hf]

theorem processEvents_finalAnswer (u : String) (evs : List SourceEvent) :
    ∀ st : AgentState,
    countFinalAnswers (processEvents u st evs).1
      = (if st.finalAnswerEmitted then 0
         else if evs.any hasQualifyingChainEnd then 1 else 0)
    ∧ (processEvents u st evs).2.finalAnswerEmitted
      = (st.finalAnswerEmitted || evs.any hasQualifyingChainEnd) := by
  induction evs with
  | nil => intro st; simp [processEvents, countFinalAnswers]
  | cons e rest ih =>
      intro st
      obtain ⟨hc, hf⟩ := parseLanggraphEvent_finalAnswer u st e
      obtain ⟨ihc, ihf⟩ := ih (parseLanggraphEvent u st e).2
      constructor
      · show countFinalAnswers ((parseLanggraphEvent u st e).1.toList
            ++ (processEvents u (parseLanggraphEvent u st e).2 rest).1) = _
        rw [countFinalAnswers, List.countP_append]
        rw [countFinalAnswers] at hc ihc
        rw [hc, ihc, hf, List.any_cons]
        cases hqe : hasQualifyingChainEnd e <;>
          cases hst : st.finalAnswerEmitted <;>
          cases hr : rest.any hasQualifyingChainEnd <;> simp
      · show (processEvents u (parseLanggraphEvent u st e).2 rest).2.finalAnswerEmitted = _
        rw [ihf, hf, List.any_cons]
        cases hqe : hasQualifyingChainEnd e <;>
          cases hst : st.finalAnswerEmitted <;> simp

theorem parseLanggraphEvent_no_error (u : String) (st : AgentState)
    (e : SourceEvent) :
    (parseLanggraphEvent u st e).1.toList.countP isErrorStreamEvent = 0 := by
  cases e <;> (dsimp only [parseLanggraphEvent]; repeat' split) <;> rfl

theorem processEvents_no_error (u : String) (evs : List SourceEvent) :
    ∀ st : AgentState,
    (processEvents u st evs).1.countP isErrorStreamEvent = 0 := by
  induction evs with
  | nil => intro st; rfl
  | cons e rest ih =>
      intro st
      show ((parseLanggraphEvent u st e).1.toList
          ++ (processEvents u (parseLanggraphEvent u st e).2 rest).1).countP
            isErrorStreamEvent = 0
      rw [List.countP_append, parseLanggraphEvent_no_error,
        ih (parseLanggraphEvent u st e).2]

theorem parseLanggraphEvent_step (u : String) (st : AgentState)
    (e : SourceEvent) :
    st.currentStep ≤ (parseLanggraphEvent u st e).2.currentStep
    ∧ ∀ ev ∈ (parseLanggraphEvent u st e).1.toList,
        stepOfEvent ev = some (parseLanggraphEvent u st e).2.currentStep := by
  cases e <;> (dsimp only [parseLanggraphEvent]; repeat' split) <;>
    simp [stepOfEvent]

theorem processEvents_steps (u : String) (evs : List SourceEvent) :
    ∀ st : AgentState,
    (∀ k ∈ stepsOf (processEvents u st evs).1,
        st.currentStep ≤ k ∧ k ≤ (processEvents u st evs).2.currentStep)
    ∧ List.Sorted (· ≤ ·) (stepsOf (processEvents u st evs).1)
    ∧ st.currentStep ≤ (processEvents u st evs).2.currentStep := by
  induction evs with
  | nil => intro st; simp [processEvents, stepsOf]
  | cons e rest ih =>
      intro st
      obtain ⟨hle, hev⟩ := parseLanggraphEvent_step u st e
      obtain ⟨ihb, ihs, ihle⟩ := ih (parseLanggraphEvent u st e).2
      have hsplit : stepsOf (processEvents u st (e :: rest)).1
          = stepsOf (parseLanggraphEvent u st e).1.toList
            ++ stepsOf (processEvents u (parseLanggraphEvent u st e).2 rest).1 := by
        show stepsOf ((parseLanggraphEvent u st e).1.toList
            ++ (processEvents u (parseLanggraphEvent u st e).2 rest).1) = _
        rw [stepsOf, stepsOf, stepsOf, List.filterMap_append]
      have hfinal : (processEvents u st (e :: rest)).2
          = (processEvents u (parseLanggraphEvent u st e).2 rest).2 := rfl
      have hA : ∀ k ∈ stepsOf (parseLanggraphEvent u st e).1.toList,
          k = (parseLanggraphEvent u st e).2.currentStep := by
        intro k hk
        rw [stepsOf] at hk
        obtain ⟨ev, hmem, hstep⟩ := List.mem_filterMap.mp hk
        have := hev ev hmem
        rw [this] at hstep
        exact (Option.some_inj.mp hstep).symm
      refine ⟨?_, ?_, ?_⟩
      · intro k hk
        rw [hsplit] at hk
        rcases List.mem_append.mp hk with hk | hk
        · have hkeq := hA k hk
          rw [hfinal, hkeq]
          exact ⟨hle, ihle⟩
        · have := ihb k hk
          rw [hfinal]
          exact ⟨le_trans hle this.1, this.2⟩
      · rw [hsplit]
        rw [List.Sorted, List.pairwise_append]
        refine ⟨?_, ihs, ?_⟩
        · cases hout : (parseLanggraphEvent u st e).1 <;>
            simp [stepsOf, List.filterMap]
          · cases hstep : stepOfEvent _ <;> simp [List.sorted_singleton]
        · intro a ha b hb
          have haeq := hA a ha
          have := ihb b hb
          rw [haeq]
          exact this.1
      · rw [hfinal]
        exact le_trans hle ihle

theorem processEvents_leading_other (u : String) (pre : List SourceEvent)
    (h : ∀ e ∈ pre, e = SourceEvent.otherEvent) :
    ∀ (st : AgentState) (rest : List SourceEvent),
      processEvents u st (pre ++ rest) = processEvents u st rest := by
  induction pre with
  | nil => intro st rest; rfl
  | cons e p ih =>
      intro st rest
      have he : e = SourceEvent.otherEvent := h e (List.mem_cons_self e p)
      subst he
      have hp : ∀ x ∈ p, x = SourceEvent.otherEvent :=
        fun x hx => h x (List.mem_cons_of_mem _ hx)
      show ((parseLanggraphEvent u st SourceEvent.otherEvent).1.toList
          ++ (processEvents u st (p ++ rest)).1,
          (processEvents u st (p ++ rest)).2) = _
      rw [ih hp st rest]
      rfl

theorem processEvents_length (u : String) (evs : List SourceEvent) :
    ∀ st : AgentState, (processEvents u st evs).1.length ≤ evs.length := by
  induction evs with
  | nil => intro st; simp [processEvents]
  | cons e rest ih =>
      intro st
      show ((parseLanggraphEvent u st e).1.toList
          ++ (processEvents u (parseLanggraphEvent u st e).2 rest).1).length
        ≤ (e :: rest).length
      rw [List.length_append]
      have h1 : (parseLanggraphEvent u st e).1.toList.length ≤ 1 := by
        cases (parseLanggraphEvent u st e).1 <;> simp
      have h2 := ih (parseLanggraphEvent u st e).2
      simp only [List.length_cons]
      omega

theorem countFinalAnswers_streamResponse (priorState : AgentState)
    (message threadId userId : String) (evs : List SourceEvent)
    (raised : Option String) :
    countFinalAnswers (streamResponse priorState message threadId userId evs raised)
      = countFinalAnswers
          (processEvents userId { currentStep := 0, finalAnswerEmitted := false } evs).1 := by
  cases raised <;>
    simp [streamResponse, countFinalAnswers, List.countP_append, List.countP_cons,
      isFinalAnswerEvent]

theorem stepsOf_streamResponse (priorState : AgentState)
    (message threadId userId : String) (evs : List SourceEvent)
    (raised : Option String) :
    stepsOf (streamResponse priorState message threadId userId evs raised)
      = stepsOf
          (processEvents userId { currentStep := 0, finalAnswerEmitted := false } evs).1 := by
  cases raised <;>
    simp [streamResponse, stepsOf, List.filterMap_append, List.filterMap_cons,
      stepOfEvent]

/-! ## C2 -/

/-- C2 counterexample: a turn whose execution raises before any
chain-completion event (the exception path the engine explicitly supports)
emits ZERO FINAL_ANSWER events, so "exactly one FINAL_ANSWER appears
regardless" is false. -/
theorem C2_counterexample_errored_turn_has_no_final_answer :
    countFinalAnswers (streamResponse ⟨0, false⟩ "What is my balance?" "t1"
      "jane_smith" [] (some "model connection error")) ≠ 1 := by
  decide

/-- C2 (amended): at most one FINAL_ANSWER react_step is emitted per turn,
and exactly one whenever at least one chain-completion event of the turn
carries a final assistant message (a content-bearing AI message with no
pending tool calls) — however many such events and messages there are; a
turn that never sees a qualifying chain completion (e.g. one aborted by an
exception) emits none. -/
theorem C2_amended_single_final_answer (priorState : AgentState)
    (message threadId userId : String) (evs : List SourceEvent)
    (raised : Option String) :
    countFinalAnswers (streamResponse priorState message threadId userId evs raised) ≤ 1
    ∧ ((∃ e ∈ evs, hasQualifyingChainEnd e = true) →
        countFinalAnswers (streamResponse priorState message threadId userId evs raised) = 1) := by
  rw [countFinalAnswers_streamResponse,
    (processEvents_finalAnswer userId evs { currentStep := 0, finalAnswerEmitted := false }).1]
  constructor
  · cases hq : evs.any hasQualifyingChainEnd <;> simp
  · rintro ⟨e, he, hqe⟩
    have hany : evs.any hasQualifyingChainEnd = true :=
      List.any_eq_true.mpr ⟨e, he, hqe⟩
    simp [hany]

/-- C2 witness: a turn whose chain completion carries one final assistant
message emits exactly one FINAL_ANSWER. -/
theorem C2_amended_single_final_answer_witness :
    (∃ e ∈ [SourceEvent.onChainEnd
        (some [ChainMessage.ai "Your balance is 100 dollars." []])],
        hasQualifyingChainEnd e = true)
    ∧ countFinalAnswers (streamResponse ⟨0, false⟩ "hi" "t1" "jane_smith"
        [SourceEvent.onChainEnd
          (some [ChainMessage.ai "Your balance is 100 dollars." []])] none) = 1 := by
  have hq : ∃ e ∈ [SourceEvent.onChainEnd
      (some [ChainMessage.ai "Your balance is 100 dollars." []])],
      hasQualifyingChainEnd e = true :=
    ⟨SourceEvent.onChainEnd (some [ChainMessage.ai "Your balance is 100 dollars." []]),
     List.mem_singleton.mpr rfl, rfl⟩
  exact ⟨hq, (C2_amended_single_final_answer ⟨0, false⟩ "hi" "t1" "jane_smith"
    [SourceEvent.onChainEnd (some [ChainMessage.ai "Your balance is 100 dollars." []])]
    none).2 hq⟩

/-! ## C3 -/

/-- C3: the stream of every turn ends with stream_complete followed by the
completion event; when the underlying execution raises, exactly one error
event is yielded before them (and as the last event before them), and the
exception is absorbed — `streamResponse` is a total function on the source
trace. -/
theorem C3_stream_well_terminated (priorState : AgentState)
    (message threadId userId : String) (evs : List SourceEvent)
    (raised : Option String) :
    ∃ body,
      streamResponse priorState message threadId userId evs raised
        = .streamStart userId threadId
            :: body ++ [.streamComplete,
                        .completion threadId bankingAgentTools.length 0]
      ∧ body.countP isErrorStreamEvent
          = (match raised with | some _ => 1 | none => 0)
      ∧ ∀ m, raised = some m →
          body.getLast? = some (.errorEvent ("Error: " ++ m)) := by
  refine ⟨(processEvents userId { currentStep := 0, finalAnswerEmitted := false } evs).1
      ++ (match raised with
          | some m => [StreamEvent.errorEvent ("Error: " ++ m)]
          | none => []), ?_, ?_, ?_⟩
  · cases raised <;> simp [streamResponse]
  · rw [List.countP_append, processEvents_no_error]
    cases raised <;> rfl
  · intro m hm
    subst hm
    exact List.getLast?_concat _

/-- C3 witness: a turn that raises immediately yields exactly the
stream_start, one error event, stream_complete and completion. -/
theorem C3_stream_well_terminated_witness :
    ∃ body,
      streamResponse ⟨0, false⟩ "What is my balance?" "t1" "jane_smith" []
          (some "boom")
        = .streamStart "jane_smith" "t1"
            :: body ++ [.streamComplete,
                        .completion "t1" bankingAgentTools.length 0]
      ∧ body.countP isErrorStreamEvent = 1
      ∧ body.getLast? = some (.errorEvent "Error: boom") := by
  obtain ⟨body, h1, h2, h3⟩ := C3_stream_well_terminated ⟨0, false⟩
    "What is my balance?" "t1" "jane_smith" [] (some "boom")
  exact ⟨body, h1, h2, h3 "boom" rfl⟩

/-! ## C5 -/

/-- C5: within one turn the step values carried by react_step and
reasoning_token events are non-decreasing (so the counter never resets
mid-turn), and they start at 1: the hypothesis states that the trace of the turn
begins — after any run of unrecognized events, which produce nothing — with
the model-start event, as every real turn does (the model is invoked before
any token, tool result or chain completion can exist). -/
theorem C5_steps_monotone_and_start_at_one (priorState : AgentState)
    (message threadId userId : String) (evs : List SourceEvent)
    (raised : Option String)
    (h : ∃ pre modelName rest,
          evs = pre ++ SourceEvent.onChatModelStart modelName :: rest
          ∧ ∀ e ∈ pre, e = SourceEvent.otherEvent) :
    List.Sorted (· ≤ ·)
      (stepsOf (streamResponse priorState message threadId userId evs raised))
    ∧ (stepsOf (streamResponse priorState message threadId userId evs raised)).head?
        = some 1 := by
  obtain ⟨pre, modelName, rest, hevs, hpre⟩ := h
  rw [stepsOf_streamResponse]
  refine ⟨(processEvents_steps userId evs
      { currentStep := 0, finalAnswerEmitted := false }).2.1, ?_⟩
  subst hevs
  rw [processEvents_leading_other userId pre hpre]
  rfl

/-- C5 witness: a trace opening with an unrecognized chain-start event and
then the model-start event carries steps [1, 1, ...] starting at 1. -/
theorem C5_steps_monotone_and_start_at_one_witness :
    List.Sorted (· ≤ ·)
      (stepsOf (streamResponse ⟨7, true⟩ "hi" "t1" "jane_smith"
        [SourceEvent.otherEvent, SourceEvent.onChatModelStart "gpt-4",
         SourceEvent.onChatModelStream "Hello"] none))
    ∧ (stepsOf (streamResponse ⟨7, true⟩ "hi" "t1" "jane_smith"
        [SourceEvent.otherEvent, SourceEvent.onChatModelStart "gpt-4",
         SourceEvent.onChatModelStream "Hello"] none)).head? = some 1 := by
  exact C5_steps_monotone_and_start_at_one ⟨7, true⟩ "hi" "t1" "jane_smith" _ none
    ⟨[SourceEvent.otherEvent], "gpt-4", [SourceEvent.onChatModelStream "Hello"],
     rfl, fun e he => List.mem_singleton.mp he⟩

/-! ## C8 -/

/-- C8 counterexample: a pathological source that requests a tool call sixty
times in a row — far past any cap "in the low tens" — is processed in full:
sixty ACTION steps are streamed and no forced FINAL_ANSWER (no degraded
"unable to complete" answer) is ever emitted.  The loop has no iteration
cap of its own. -/
theorem C8_counterexample_no_cap_no_forced_finalization :
    countFinalAnswers (streamResponse ⟨0, false⟩ "hi" "t1" "jane_smith"
        (List.replicate 60 (SourceEvent.onToolStart "get_account_balance")) none) = 0
    ∧ (streamResponse ⟨0, false⟩ "hi" "t1" "jane_smith"
        (List.replicate 60 (SourceEvent.onToolStart "get_account_balance")) none).countP
          isActionEvent = 60 := by
  decide

/-- C8 (amended): the turn loop imposes no iteration cap and forces no
degraded answer; it terminates exactly when the underlying event source
does — the output stream is finite, with at most one event per source event
plus the four protocol-framing events — and a turn whose source never emits
a qualifying chain completion (e.g. a runaway tool-calling loop, however
long) produces no FINAL_ANSWER at all.  Termination against a pathological
model is therefore inherited from the underlying execution engine (whose
recursion bound surfaces as a raised exception, handled per C3), not
enforced by repository code. -/
theorem C8_amended_termination_relative_to_source (priorState : AgentState)
    (message threadId userId : String) (evs : List SourceEvent)
    (raised : Option String) :
    (streamResponse priorState message threadId userId evs raised).length
        ≤ evs.length + 4
    ∧ ((∀ e ∈ evs, hasQualifyingChainEnd e = false) →
        countFinalAnswers
          (streamResponse priorState message threadId userId evs raised) = 0) := by
  constructor
  · have hlen := processEvents_length userId evs
      { currentStep := 0, finalAnswerEmitted := false }
    cases raised <;> simp [streamResponse] <;> omega
  · intro hall
    rw [countFinalAnswers_streamResponse,
      (processEvents_finalAnswer userId evs
        { currentStep := 0, finalAnswerEmitted := false }).1]
    have hany : evs.any hasQualifyingChainEnd = false :=
      List.any_eq_false.mpr (by intro e he; simp [hall e he])
    simp [hany]

/-- C8 witness: twenty-five consecutive tool-call events stay within the
length bound and force no FINAL_ANSWER. -/
theorem C8_amended_termination_relative_to_source_witness :
    (streamResponse ⟨0, false⟩ "hi" "t1" "jane_smith"
        (List.replicate 25 (SourceEvent.onToolStart "get_transactions")) none).length
      ≤ (List.replicate 25 (SourceEvent.onToolStart "get_transactions")).length + 4
    ∧ countFinalAnswers (streamResponse ⟨0, false⟩ "hi" "t1" "jane_smith"
        (List.replicate 25 (SourceEvent.onToolStart "get_transactions")) none) = 0 := by
  have h := C8_amended_termination_relative_to_source ⟨0, false⟩ "hi" "t1"
    "jane_smith" (List.replicate 25 (SourceEvent.onToolStart "get_transactions")) none
  exact ⟨h.1, h.2 (by decide)⟩

/-! ## C9 -/

/-- C9: the completion event of a turn in which NO tool was invoked (the
trace has zero tool-start events) still reports tools_used = 4: the code
computes `len([t for t in self.tools])`, the size of the registered tool
list, not the number of tool invocations of the turn, which here is 0. -/
theorem C9_completion_reports_registered_tool_count :
    (List.countP isToolStartEvent
        [SourceEvent.onChatModelStart "gpt-4",
         SourceEvent.onChatModelStream "Hello!",
         SourceEvent.onChatModelEnd [] "Hello! How can I help you today?",
         SourceEvent.onChainEnd
           (some [ChainMessage.ai "Hello! How can I help you today?" []])]) = 0
    ∧ (streamResponse ⟨0, false⟩ "Hello" "t1" "jane_smith"
        [SourceEvent.onChatModelStart "gpt-4",
         SourceEvent.onChatModelStream "Hello!",
         SourceEvent.onChatModelEnd [] "Hello! How can I help you today?",
         SourceEvent.onChainEnd
           (some [ChainMessage.ai "Hello! How can I help you today?" []])] none).getLast?
        = some (.completion "t1" 4 0)
    ∧ bankingAgentTools.length = 4
    ∧ (4 : Nat) ≠ 0 := by
  refine ⟨rfl, ?_, rfl, by decide⟩
  decide

/-! ## C10 -/

/-- C10: `get_banking_agent` returns one process-wide instance whatever
user_id is passed — the result is independent of the argument, and a second
call (with any argument) returns the very instance the first call produced —
so the per-turn mutable fields live on one shared object; `stream_response`
overwrites them (current_step = 0, final-answer flag cleared) at the start
of each turn, making its output independent of the state any earlier turn
left behind. -/
theorem C10_shared_singleton_agent_and_reset :
    ∀ (u1 u2 : String) (st : AgentModuleState),
      (getBankingAgent u1 st).1 = (getBankingAgent u2 st).1
      ∧ (getBankingAgent u2 (getBankingAgent u1 st).2).1 = (getBankingAgent u1 st).1
      ∧ ∀ (s1 s2 : AgentState) (message threadId userId : String)
          (evs : List SourceEvent) (raised : Option String),
          streamResponse s1 message threadId userId evs raised
            = streamResponse s2 message threadId userId evs raised := by
  intro u1 u2 st
  refine ⟨rfl, ?_, fun s1 s2 m t u evs r => rfl⟩
  cases h : st.agentInstance <;> simp [getBankingAgent, h]

end BankingBot
